import Mathlib

/-!
Shallow embedding of the ATLAI runtime pieces that the specification's claims
are about:

* the circuit breaker injected into the session state machine by
  `add_fsm_circuit_breaker.py` (the breaker methods and the patched
  `transition` wrapper live verbatim in that script's string literals);
* the NuSMV model of the REUG state machine emitted by
  `generate_reug_documentation.py` (`generate_nusmv_model`);
* the capability-creation pipeline, capability registry, tool executor and
  `ToolResult` bookkeeping, which are not part of the available sources (only
  their tests and callers are) and are therefore modelled from the spec where
  a claim needs them.

Time is modelled as an exact rational number standing for `time.time()`.
-/

namespace Atlai

/-- The REUG session states (spec §4.1, `generate_reug_documentation.py`). -/
inductive REUGState
  | READY
  | ENGAGE
  | UNDERSTAND
  | EXECUTE_SCRIPT
  | GENERATE
  | CREATE_DYNAMIC_TOOL
  | VALIDATE_TOOL_SCHEMA
  | PARALLELIZE_TASKS
  | AWAIT_PARALLEL_RESULTS
  | ERROR_RECOVERY_UNIFIED
  | COMPLETE
  | SHUTDOWN
  deriving DecidableEq, Repr

/-- The transition triggers of the REUG machine (spec §4.1). -/
inductive TransitionTrigger
  | USER_INPUT
  | SHUTDOWN_REQUESTED
  | INTENT_DETECTED
  | ERROR_OCCURRED
  | FATAL_ERROR
  | SCRIPT_PARSED
  | TOOLS_ROUTED
  | DYNAMIC_TOOL_REQUEST
  | PARALLEL_TASKS_READY
  | SCRIPT_STEP_COMPLETE
  | SCRIPT_EXECUTION_COMPLETE
  | TIMEOUT_DETECTED
  | RECURSION_LIMIT_EXCEEDED
  | STEP_BUDGET_EXHAUSTED
  | DYNAMIC_TOOL_CREATED
  | SCHEMA_VALIDATED
  | SCHEMA_INVALID
  | TOOL_SUCCESS
  | TOOL_FAILURE
  | PARALLEL_RESULTS_READY
  | RESPONSE_READY
  | RECOVERY_SUCCESS
  | TURN_COMPLETE
  deriving DecidableEq, Repr

/-- A mailbox entry; the circuit breaker only ever inspects `len(self.mailbox)`,
so the payload is reduced to a topic and an id (spec §3). -/
structure Event where
  topic : String
  id : Nat
  deriving DecidableEq, Repr

/-- Circuit breaker configuration constants (`add_fsm_circuit_breaker.py`). -/
def MAILBOX_MAX_SIZE : Nat := 100

def MAILBOX_WARNING_SIZE : Nat := 50

def TRANSITION_RATE_LIMIT : Nat := 10

def CIRCUIT_BREAKER_TIMEOUT : ℚ := 30

/-- `CircuitBreakerState` dataclass from `add_fsm_circuit_breaker.py`. -/
structure CircuitBreakerState where
  is_open : Bool := false
  failure_count : Nat := 0
  last_failure_time : ℚ := 0
  last_transition_time : ℚ := 0
  transition_count : Nat := 0
  transition_window_start : ℚ := 0
  deriving DecidableEq, Repr

/-- The metrics sink touched by the breaker code, with the metric names fixed
by spec §6; the trips counter is labelled by its `reason` string. -/
structure MetricsRegistry where
  sa_fsm_circuit_breaker_trips_total : String → Nat := fun _ => 0
  sa_fsm_circuit_breaker_open : ℚ := 0
  sa_fsm_blocked_transitions_total : Nat := 0
  sa_fsm_mailbox_pressure : ℚ := 0

/-- The session state machine pieces the injected breaker code reads and
writes: `self.current_state`, `self.mailbox`, `self.circuit_breaker`,
`self.metrics_registry`. -/
structure StateMachine where
  current_state : REUGState := .READY
  mailbox : List Event := []
  circuit_breaker : CircuitBreakerState := {}
  metrics_registry : MetricsRegistry := {}

/-- `_trip_circuit_breaker` from `add_fsm_circuit_breaker.py`: open the
breaker, bump the failure count, stamp the failure time, bump the labelled
trips counter and raise the open-gauge. `now` stands for the `time.time()`
call inside the method. -/
def StateMachine.trip_circuit_breaker (s : StateMachine) (reason : String) (now : ℚ) :
    StateMachine :=
  { s with
    circuit_breaker :=
      { s.circuit_breaker with
        is_open := true
        failure_count := s.circuit_breaker.failure_count + 1
        last_failure_time := now }
    metrics_registry :=
      { s.metrics_registry with
        sa_fsm_circuit_breaker_trips_total := fun r =>
          if r = reason then s.metrics_registry.sa_fsm_circuit_breaker_trips_total r + 1
          else s.metrics_registry.sa_fsm_circuit_breaker_trips_total r
        sa_fsm_circuit_breaker_open := 1 } }

/-- `_reset_circuit_breaker` from `add_fsm_circuit_breaker.py`. -/
def StateMachine.reset_circuit_breaker (s : StateMachine) : StateMachine :=
  { s with
    circuit_breaker := { s.circuit_breaker with is_open := false, failure_count := 0 }
    metrics_registry := { s.metrics_registry with sa_fsm_circuit_breaker_open := 0 } }

/-- `_check_circuit_breaker` from `add_fsm_circuit_breaker.py`; `current_time`
stands for `time.time()` at entry.  Returns the mutated machine together with
the boolean the method returns (`true` = transition allowed). -/
def StateMachine.check_circuit_breaker (s : StateMachine) (current_time : ℚ) :
    StateMachine × Bool :=
  if s.mailbox.length > MAILBOX_MAX_SIZE then
    (s.trip_circuit_breaker "mailbox_overflow" current_time, false)
  else
    let s1 :=
      if current_time - s.circuit_breaker.transition_window_start ≥ 1 then
        { s with
          circuit_breaker :=
            { s.circuit_breaker with
              transition_count := 0
              transition_window_start := current_time } }
      else s
    if s1.circuit_breaker.transition_count ≥ TRANSITION_RATE_LIMIT then
      (s1.trip_circuit_breaker "rate_limit" current_time, false)
    else if s1.circuit_breaker.is_open then
      if current_time - s1.circuit_breaker.last_failure_time > CIRCUIT_BREAKER_TIMEOUT then
        (s1.reset_circuit_breaker, true)
      else (s1, false)
    else (s1, true)

/-- `_update_transition_metrics` from `add_fsm_circuit_breaker.py`. -/
def StateMachine.update_transition_metrics (s : StateMachine) (now : ℚ) : StateMachine :=
  { s with
    circuit_breaker :=
      { s.circuit_breaker with
        transition_count := s.circuit_breaker.transition_count + 1
        last_transition_time := now }
    metrics_registry :=
      { s.metrics_registry with
        sa_fsm_mailbox_pressure := (s.mailbox.length : ℚ) / (MAILBOX_MAX_SIZE : ℚ) } }

/-- The breaker gate that `add_fsm_circuit_breaker.py` splices into the start
of `transition`: a failing check bumps `sa_fsm_blocked_transitions_total` and
returns early (`false`); a passing check runs `_update_transition_metrics`
and lets the original body proceed (`true`). -/
def StateMachine.attempt (s : StateMachine) (now : ℚ) : StateMachine × Bool :=
  match s.check_circuit_breaker now with
  | (s1, false) =>
    ({ s1 with
        metrics_registry :=
          { s1.metrics_registry with
            sa_fsm_blocked_transitions_total :=
              s1.metrics_registry.sa_fsm_blocked_transitions_total + 1 } },
      false)
  | (s1, true) => (s1.update_transition_metrics now, true)

/-- The patched `transition` method: the breaker gate first, then the original
method body.  `src/core/states.py` is not among the available sources, so the
original body is abstracted as the parameter `body`; the patch is oblivious
to it. -/
def StateMachine.transition (body : StateMachine → TransitionTrigger → StateMachine)
    (s : StateMachine) (trigger : TransitionTrigger) (now : ℚ) : StateMachine :=
  match s.attempt now with
  | (s1, false) => s1
  | (s1, true) => body s1 trigger

/-- `n` consecutive transition attempts, all observed at the same clock value
`now` (hence inside a single 1-second rate window). -/
def StateMachine.attemptsAt (s : StateMachine) (now : ℚ) : Nat → StateMachine
  | 0 => s
  | n + 1 => ((s.attemptsAt now n).attempt now).1

/-! The NuSMV model of the REUG machine emitted by
`generate_reug_documentation.py` (`generate_nusmv_model`).  The boolean
`VAR`s that the model never constrains with a `next(...)` assignment
(`user_input_ready`, `error_occurred`, ..., and `timeout_reached`) are
nondeterministic in NuSMV and appear here as an input record. -/

/-- The unconstrained boolean variables of the NuSMV model, one instant's
worth of nondeterministic choice. -/
structure NusmvInput where
  user_input_ready : Bool := false
  intent_detected : Bool := false
  tools_routed : Bool := false
  script_parsed : Bool := false
  schema_valid : Bool := false
  parallel_ready : Bool := false
  error_occurred : Bool := false
  fatal_error : Bool := false
  recovery_success : Bool := false
  timeout_reached : Bool := false
  deriving DecidableEq, Repr

/-- The assigned variables of the NuSMV model (`state`, `step_budget`,
`recursion_depth`, `tool_retry_count`). -/
structure NusmvState where
  state : REUGState
  step_budget : Nat
  recursion_depth : Nat
  tool_retry_count : Nat
  deriving DecidableEq, Repr

/-- The `next(state)` case chain of the NuSMV model, clauses in source
order, `TRUE : state` as the final fallback. -/
def nusmvNextState (s : NusmvState) (i : NusmvInput) : REUGState :=
  if s.state = .READY ∧ i.user_input_ready then .ENGAGE
  else if s.state = .READY ∧ ¬i.user_input_ready then .READY
  else if s.state = .ENGAGE ∧ i.intent_detected ∧ ¬i.error_occurred then .UNDERSTAND
  else if s.state = .ENGAGE ∧ i.error_occurred ∧ ¬i.fatal_error then .ERROR_RECOVERY_UNIFIED
  else if s.state = .ENGAGE ∧ i.fatal_error then .COMPLETE
  else if s.state = .UNDERSTAND ∧ i.script_parsed ∧ ¬i.error_occurred then .EXECUTE_SCRIPT
  else if s.state = .UNDERSTAND ∧ i.tools_routed ∧ ¬i.script_parsed ∧ ¬i.parallel_ready then
    .GENERATE
  else if s.state = .UNDERSTAND ∧ i.parallel_ready ∧ ¬i.error_occurred then .PARALLELIZE_TASKS
  else if s.state = .UNDERSTAND ∧ i.error_occurred ∧ ¬i.fatal_error then .ERROR_RECOVERY_UNIFIED
  else if s.state = .UNDERSTAND ∧ i.fatal_error then .COMPLETE
  else if s.state = .EXECUTE_SCRIPT ∧ ¬i.error_occurred ∧ ¬i.timeout_reached ∧
      s.recursion_depth < 5 ∧ s.step_budget > 0 then .GENERATE
  else if s.state = .EXECUTE_SCRIPT ∧ (i.error_occurred ∨ i.timeout_reached ∨
      s.recursion_depth ≥ 5 ∨ s.step_budget ≤ 0) then .ERROR_RECOVERY_UNIFIED
  else if s.state = .VALIDATE_TOOL_SCHEMA ∧ i.schema_valid then .COMPLETE
  else if s.state = .VALIDATE_TOOL_SCHEMA ∧ ¬i.schema_valid then .ERROR_RECOVERY_UNIFIED
  else if s.state = .PARALLELIZE_TASKS ∧ ¬i.error_occurred then .AWAIT_PARALLEL_RESULTS
  else if s.state = .PARALLELIZE_TASKS ∧ i.error_occurred then .ERROR_RECOVERY_UNIFIED
  else if s.state = .AWAIT_PARALLEL_RESULTS ∧ ¬i.timeout_reached then .GENERATE
  else if s.state = .AWAIT_PARALLEL_RESULTS ∧ i.timeout_reached then .ERROR_RECOVERY_UNIFIED
  else if s.state = .GENERATE ∧ ¬i.error_occurred then .COMPLETE
  else if s.state = .GENERATE ∧ i.error_occurred ∧ ¬i.fatal_error then .ERROR_RECOVERY_UNIFIED
  else if s.state = .GENERATE ∧ i.fatal_error then .COMPLETE
  else if s.state = .ERROR_RECOVERY_UNIFIED ∧ i.recovery_success ∧ s.tool_retry_count < 3 then
    .UNDERSTAND
  else if s.state = .ERROR_RECOVERY_UNIFIED ∧ (¬i.recovery_success ∨ s.tool_retry_count ≥ 3) then
    .COMPLETE
  else if s.state = .COMPLETE then .READY
  else if s.state = .SHUTDOWN then .SHUTDOWN
  else s.state

/-- One synchronous step of the NuSMV model: `next(state)`,
`next(step_budget)` (counts down while positive), `next(recursion_depth)`
(tracks entry to / exit from `EXECUTE_SCRIPT`, referencing `next(state)`)
and `next(tool_retry_count)` (bumped on recovery errors, zeroed from
`COMPLETE`), each a case chain in source order. -/
def nusmvStep (s : NusmvState) (i : NusmvInput) : NusmvState :=
  let st := nusmvNextState s i
  { state := st
    step_budget := if s.step_budget > 0 then s.step_budget - 1 else s.step_budget
    recursion_depth :=
      if s.state = .UNDERSTAND ∧ st = .EXECUTE_SCRIPT then s.recursion_depth + 1
      else if s.state = .EXECUTE_SCRIPT ∧ st ≠ .EXECUTE_SCRIPT then s.recursion_depth - 1
      else s.recursion_depth
    tool_retry_count :=
      if s.state = .ERROR_RECOVERY_UNIFIED ∧ i.error_occurred then s.tool_retry_count + 1
      else if s.state = .COMPLETE then 0
      else s.tool_retry_count }

/-! The capability layer.  The CreatorPipeline, CapabilityRegistry and
ToolExecutor implementations are not among the available sources — only
their tests and callers are (`comprehensive_validation_suite.py`,
`capability_audit_cli.py`, `scripts/`) — so the definitions below are
modelled from the spec (§3, §4.2–§4.4, §8). -/

/-- Modelled from the spec: the capability lifecycle status enum of §3
(the `src/core` registry module is missing from the sources). -/
inductive CapabilityStatus
  | draft
  | validated
  | active
  | error
  | deprecated
  deriving DecidableEq, Repr

/-- Modelled from the spec: the capability type enum of §3. -/
inductive CapabilityType
  | tool
  | plugin
  | template
  deriving DecidableEq, Repr

/-- Modelled from the spec: the constructs the safety scan of §4.2 step 2
inspects generated code for — dynamic code evaluation, process/OS
invocation, unrestricted imports (mirroring the validation suite's pattern
list `__import__`, `eval(`, `exec(`, `subprocess`, `os.system`) — plus
ordinary harmless statements. -/
inductive Construct
  | evalCall
  | execCall
  | dunderImport
  | subprocessCall
  | osSystemCall
  | unrestrictedImport
  | defStatement
  | returnStatement
  deriving DecidableEq, Repr

/-- Modelled from the spec: which constructs the safety scan rejects. -/
def Construct.dangerous : Construct → Bool
  | .evalCall => true
  | .execCall => true
  | .dunderImport => true
  | .subprocessCall => true
  | .osSystemCall => true
  | .unrestrictedImport => true
  | .defStatement => false
  | .returnStatement => false

/-- A `ToolCall`'s parameter mapping (spec §3), names to values. -/
abbrev ToolParams := List (String × Nat)

/-- Modelled from the spec: a candidate implementation produced by the
generate step of §4.2 (the CreatorPlugin is missing from the sources) —
the constructs appearing in its code (what the safety scan sees), whether
it parses (the compile check), whether it declares a parameter schema
(the schema validation), and the executable meaning of its body. -/
structure Candidate where
  constructs : List Construct
  compiles : Bool
  declares_schema : Bool
  semantics : ToolParams → Except String Nat

/-- Modelled from the spec: the metadata of a Capability record (§3). -/
structure CapabilityMetadata where
  capability_type : CapabilityType := .tool
  version : String := "1.0"
  author : String := "creator_pipeline"
  description : String := ""
  tags : List String := []
  dependencies : List String := []
  use_cases : List String := []
  deriving DecidableEq, Repr

/-- Modelled from the spec: a Capability (tool record) of §3. -/
structure Capability where
  name : String
  code : Candidate
  metadata : CapabilityMetadata
  status : CapabilityStatus
  created_at : ℚ
  last_used : Option ℚ
  usage_count : Nat
  error_message : Option String

/-- Modelled from the spec: the shared catalog of dynamically created
tools (§4.3), keyed by capability name. -/
structure CapabilityRegistry where
  capabilities : List Capability := []

/-- Modelled from the spec: `get(name) → Capability | NotFound` (§4.3). -/
def CapabilityRegistry.get (r : CapabilityRegistry) (name : String) : Option Capability :=
  r.capabilities.find? fun c => c.name == name

/-- Modelled from the spec: `register(name, code, metadata) → Capability |
ConflictError` (§4.3); a registration for an already-present name is a
conflict and mutates nothing, a fresh registration appends the new
Capability in status `draft`. -/
def CapabilityRegistry.register (r : CapabilityRegistry) (name : String) (code : Candidate)
    (meta : CapabilityMetadata) (now : ℚ) :
    Except String (CapabilityRegistry × Capability) :=
  match r.get name with
  | some _ => .error "ConflictError"
  | none =>
    let cap : Capability :=
      { name := name, code := code, metadata := meta, status := .draft, created_at := now
        last_used := none, usage_count := 0, error_message := none }
    .ok ({ capabilities := r.capabilities ++ [cap] }, cap)

/-- Modelled from the spec: the status promotion writes of §3/§4.2
(`draft → validated → active`, `error` on failure). -/
def CapabilityRegistry.set_status (r : CapabilityRegistry) (name : String)
    (st : CapabilityStatus) : CapabilityRegistry :=
  { capabilities :=
      r.capabilities.map fun c => if c.name == name then { c with status := st } else c }

/-- Modelled from the spec: `record_usage(name)` — increments
`usage_count` and sets `last_used` (§4.3). -/
def CapabilityRegistry.record_usage (r : CapabilityRegistry) (name : String) (now : ℚ) :
    CapabilityRegistry :=
  { capabilities :=
      r.capabilities.map fun c =>
        if c.name == name then { c with usage_count := c.usage_count + 1, last_used := some now }
        else c }

/-- Modelled from the spec: the `AtomGap` descriptor of §3. -/
structure AtomGap where
  missing_tool : String
  description : String
  gap_id : String := ""
  session_id : String := ""
  deriving DecidableEq, Repr

/-- The Fibonacci function the generated fibonacci archetype computes
(fib 0 = 0, fib 1 = 1). -/
def fibonacci : Nat → Nat
  | 0 => 0
  | 1 => 1
  | n + 2 => fibonacci n + fibonacci (n + 1)

/-- Whether `needle` occurs as a contiguous run inside the character
list. -/
def charSubOf (needle : List Char) : List Char → Bool
  | [] => needle.isEmpty
  | c :: rest => needle.isPrefixOf (c :: rest) || charSubOf needle rest

/-- Keyword/pattern match of a gap description against an archetype
keyword: substring containment (spec §4.2 step 1). -/
def containsKeyword (desc kw : String) : Bool :=
  charSubOf kw.toList desc.toList

/-- Modelled from the spec: the generate step of §4.2 (the CreatorPlugin's
template renderer is missing from the sources) — classify the description
by keyword against known archetypes; the fibonacci archetype renders a
compilable, schema-declaring candidate whose body computes `fibonacci` of
the parameter `n` (default 10); unknown archetypes fall back to a safe
stub with an explicit "not implemented" result. -/
def generate_candidate (gap : AtomGap) : Candidate :=
  if containsKeyword gap.description "fibonacci" then
    { constructs := [.defStatement, .returnStatement]
      compiles := true
      declares_schema := true
      semantics := fun params => .ok (fibonacci ((params.lookup "n").getD 10)) }
  else
    { constructs := [.defStatement, .returnStatement]
      compiles := true
      declares_schema := true
      semantics := fun _ => .error "not implemented" }

/-- Modelled from the spec: the safety scan of §4.2 step 2 — the candidate
passes iff none of its constructs is dangerous. -/
def safety_scan (cand : Candidate) : Bool :=
  !(cand.constructs.any Construct.dangerous)

/-- Modelled from the spec: what the pipeline signals back to the owning
session (§4.2 failure policy): a registered capability, a validation
failure (`ERROR_OCCURRED`), or `SCHEMA_INVALID`. -/
inductive PipelineOutcome
  | registered (cap : Capability)
  | validation_failure
  | schema_invalid

/-- Modelled from the spec: steps 2–5 of the CreatorPipeline (§4.2) on a
candidate — safety scan, compile check, schema validation, then
registration (`draft → validated`), followed by the sandbox first
execution which on success promotes the capability to `active`; any
failing step mutates nothing and reports a failure. -/
def validate_and_register (r : CapabilityRegistry) (gap : AtomGap) (cand : Candidate)
    (now : ℚ) : CapabilityRegistry × PipelineOutcome :=
  if ¬(safety_scan cand = true) then (r, .validation_failure)
  else if ¬(cand.compiles = true) then (r, .validation_failure)
  else if ¬(cand.declares_schema = true) then (r, .schema_invalid)
  else
    match r.register gap.missing_tool cand { description := gap.description } now with
    | .error _ => (r, .validation_failure)
    | .ok (r1, cap) =>
      let r2 := r1.set_status gap.missing_tool .validated
      match cand.semantics [] with
      | .ok _ => (r2.set_status gap.missing_tool .active, .registered cap)
      | .error _ => (r2, .registered cap)

/-- Modelled from the spec: the CreatorPipeline's handling of one
`AtomGap` event (§4.2): generate a candidate from the gap, then validate
and register it. -/
def process_gap (r : CapabilityRegistry) (gap : AtomGap) (now : ℚ) :
    CapabilityRegistry × PipelineOutcome :=
  validate_and_register r gap (generate_candidate gap) now

/-- Modelled from the spec: a `ToolCall` event (§3). -/
structure ToolCall where
  tool_name : String
  parameters : ToolParams
  tool_call_id : String

/-- Modelled from the spec: a `ToolResult` event (§3). -/
structure ToolResult where
  tool_call_id : String
  success : Bool
  result : Option Nat
  error : Option String
  deriving DecidableEq, Repr

/-- Modelled from the spec: what the ToolExecutor emits for one
`ToolCall` — a `ToolResult`, or an `AtomGap` when the name is absent
(§4.4 step 1). -/
inductive ExecutorOutput
  | result (res : ToolResult)
  | gap (g : AtomGap)

/-- Modelled from the spec: the ToolExecutor's handling of one `ToolCall`
(§4.4, the ToolExecutorPlugin is missing from the sources): resolve the
name (absent ⇒ emit an `AtomGap`, no result); `status=error` ⇒ immediate
failure result citing the stored error; otherwise execute the code against
the parameters, a raised error yielding `success=false` and normal
completion `success=true` (first success promoting the capability to
`active`); `record_usage` runs on the resolved capability before
returning, regardless of outcome. -/
def handle_tool_call (r : CapabilityRegistry) (call : ToolCall) (now : ℚ) :
    CapabilityRegistry × ExecutorOutput :=
  match r.get call.tool_name with
  | none =>
    (r, .gap { missing_tool := call.tool_name, description := call.tool_name })
  | some cap =>
    if cap.status = .error then
      (r.record_usage call.tool_name now,
        .result { tool_call_id := call.tool_call_id, success := false, result := none
                  error := cap.error_message })
    else
      match cap.code.semantics call.parameters with
      | .ok v =>
        ((r.set_status call.tool_name .active).record_usage call.tool_name now,
          .result { tool_call_id := call.tool_call_id, success := true, result := some v
                    error := none })
      | .error e =>
        (r.record_usage call.tool_name now,
          .result { tool_call_id := call.tool_call_id, success := false, result := none
                    error := some e })

/-- Modelled from the spec: the session-side consumer of `ToolResult`
events (§8 idempotence property; the consuming component is missing from
the sources).  It remembers the `tool_call_id`s it has already consumed
and applies usage accounting at most once per id. -/
structure ResultConsumer where
  registry : CapabilityRegistry := {}
  processed_tool_call_ids : List String := []

/-- Modelled from the spec: delivery of one `ToolResult` event for the
capability `tool_name`: a duplicate `tool_call_id` is ignored, a fresh one
records usage and is remembered. -/
def ResultConsumer.deliver (st : ResultConsumer) (tool_name : String) (res : ToolResult)
    (now : ℚ) : ResultConsumer :=
  if st.processed_tool_call_ids.contains res.tool_call_id then st
  else
    { registry := st.registry.record_usage tool_name now
      processed_tool_call_ids := res.tool_call_id :: st.processed_tool_call_ids }

/-! Concrete inputs used by the witnesses and counterexamples. -/

/-- A session whose mailbox holds 101 pending events. -/
def overflowedSession : StateMachine :=
  { mailbox := (List.range 101).map fun i => { topic := "conversation", id := i } }

/-- A session with an open breaker, an overflowed mailbox, and the last
failure 31 seconds in the past at clock value 31. -/
def openOverflowedSession : StateMachine :=
  { mailbox := (List.range 101).map fun i => { topic := "conversation", id := i }
    circuit_breaker := { is_open := true, failure_count := 1, last_failure_time := 0 } }

/-- A session with an open breaker, an empty mailbox and a quiet rate
window. -/
def openQuietSession : StateMachine :=
  { circuit_breaker := { is_open := true, failure_count := 2, last_failure_time := 0 } }

/-- A freshly created session. -/
def freshSession : StateMachine := {}

/-- A transition-method body that would drive the session to `SHUTDOWN`,
used to observe that a blocked attempt never runs the body. -/
def shutdownBody : StateMachine → TransitionTrigger → StateMachine := fun s _ =>
  { s with current_state := .SHUTDOWN }

/-- A NuSMV state sitting in `COMPLETE` with a partly spent budget, a
nonzero recursion depth and a nonzero retry count. -/
def completeSessionSnapshot : NusmvState :=
  { state := .COMPLETE, step_budget := 50, recursion_depth := 2, tool_retry_count := 2 }

/-- A candidate whose code spawns a process: the safety scan must reject
it. -/
def dangerousCandidate : Candidate :=
  { constructs := [.defStatement, .subprocessCall]
    compiles := true
    declares_schema := true
    semantics := fun _ => .error "unsafe" }

/-- A harmless candidate used to exercise the registry round trip. -/
def sampleCandidate : Candidate :=
  { constructs := [.defStatement], compiles := true, declares_schema := true
    semantics := fun _ => .ok 0 }

/-- The Capability that registering `sampleCandidate` as `sample_tool` in
an empty registry produces. -/
def sampleCap : Capability :=
  { name := "sample_tool", code := sampleCandidate, metadata := {}, status := .draft
    created_at := 0, last_used := none, usage_count := 0, error_message := none }

/-- The gap event of Scenario C (spec §8). -/
def e2eGap : AtomGap :=
  { missing_tool := "e2e_fibonacci", description := "fibonacci", gap_id := "g1"
    session_id := "e2e_session" }

/-- The registry after the CreatorPipeline handles `e2eGap`. -/
def e2eRegistry : CapabilityRegistry := (process_gap {} e2eGap 0).1

/-- The tool call of Scenario C: `e2e_fibonacci` with `n = 10`. -/
def e2eCall : ToolCall :=
  { tool_name := "e2e_fibonacci", parameters := [("n", 10)], tool_call_id := "e2e_test_call" }

/-! Helper lemmas shared by the claim theorems. -/

/-- `_check_circuit_breaker` never touches the session's current state, its
mailbox, or the blocked-transitions counter. -/
theorem check_circuit_breaker_frame (s : StateMachine) (now : ℚ) :
    (s.check_circuit_breaker now).1.current_state = s.current_state ∧
    (s.check_circuit_breaker now).1.mailbox = s.mailbox ∧
    (s.check_circuit_breaker now).1.metrics_registry.sa_fsm_blocked_transitions_total
      = s.metrics_registry.sa_fsm_blocked_transitions_total := by
  simp only [StateMachine.check_circuit_breaker, StateMachine.trip_circuit_breaker,
    StateMachine.reset_circuit_breaker]
  split_ifs <;> simp

/-- `_check_circuit_breaker` keeps the transition count at or below the rate
limit, and only allows a transition while the count is strictly below it. -/
theorem check_count_le (s : StateMachine) (now : ℚ)
    (h : s.circuit_breaker.transition_count ≤ TRANSITION_RATE_LIMIT) :
    ((s.check_circuit_breaker now).1.circuit_breaker.transition_count
        ≤ TRANSITION_RATE_LIMIT) ∧
    ((s.check_circuit_breaker now).2 = true →
      (s.check_circuit_breaker now).1.circuit_breaker.transition_count
        < TRANSITION_RATE_LIMIT) := by
  simp only [StateMachine.check_circuit_breaker, StateMachine.trip_circuit_breaker,
    StateMachine.reset_circuit_breaker]
  split_ifs <;> simp_all <;> omega

/-! The claims. -/

/-- C1: a candidate whose code contains a dangerous construct, or which
fails to compile, mutates the registry in no way — no Capability is
registered from it — and the pipeline reports a validation failure. -/
theorem unsafe_or_noncompiling_never_registered (r : CapabilityRegistry) (gap : AtomGap)
    (cand : Candidate) (now : ℚ)
    (h : cand.constructs.any Construct.dangerous = true ∨ cand.compiles = false) :
    (validate_and_register r gap cand now).1 = r ∧
    (validate_and_register r gap cand now).2 = .validation_failure := by
  rcases h with h | h
  · simp [validate_and_register, safety_scan, h]
  · by_cases hs : safety_scan cand = true <;> simp [validate_and_register, hs, h]

/-- C1 witness: a process-spawning candidate is rejected on a concrete
empty registry, which stays empty. -/
theorem unsafe_or_noncompiling_never_registered_witness :
    dangerousCandidate.constructs.any Construct.dangerous = true ∧
    (validate_and_register {} { missing_tool := "spawn", description := "spawn" }
        dangerousCandidate 0).1 = ({} : CapabilityRegistry) ∧
    (validate_and_register {} { missing_tool := "spawn", description := "spawn" }
        dangerousCandidate 0).2 = .validation_failure := by
  have h := unsafe_or_noncompiling_never_registered {}
    { missing_tool := "spawn", description := "spawn" } dangerousCandidate 0 (Or.inl rfl)
  exact ⟨rfl, h.1, h.2⟩

/-- C2 counterexample: a session whose breaker is open, with the cooldown
expired (31 − 0 > 30) but the mailbox overflowed, is still blocked and its
breaker stays open — the claim's unconditional "once the cooldown expires
the breaker is reset and the attempt is allowed" is false. -/
theorem breaker_timeout_counterexample :
    openOverflowedSession.circuit_breaker.is_open = true ∧
    (31 : ℚ) - openOverflowedSession.circuit_breaker.last_failure_time
      > CIRCUIT_BREAKER_TIMEOUT ∧
    (openOverflowedSession.check_circuit_breaker 31).2 = false ∧
    (openOverflowedSession.check_circuit_breaker 31).1.circuit_breaker.is_open = true := by
  norm_num [openOverflowedSession, CIRCUIT_BREAKER_TIMEOUT, StateMachine.check_circuit_breaker,
    StateMachine.trip_circuit_breaker, MAILBOX_MAX_SIZE]

/-- C2 (amended): while the breaker is open and the cooldown has not
expired every attempt is blocked; once `now − last_failure_time` exceeds
`CIRCUIT_BREAKER_TIMEOUT`, provided neither the mailbox-size check nor the
rate-limit check trips the breaker first, the breaker is reset
(`is_open = false`, `failure_count = 0`) and the attempt is allowed as a
trial. -/
theorem breaker_open_gating (s : StateMachine) (now : ℚ) :
    (s.circuit_breaker.is_open = true →
      now - s.circuit_breaker.last_failure_time ≤ CIRCUIT_BREAKER_TIMEOUT →
      (s.check_circuit_breaker now).2 = false) ∧
    (s.circuit_breaker.is_open = true →
      now - s.circuit_breaker.last_failure_time > CIRCUIT_BREAKER_TIMEOUT →
      s.mailbox.length ≤ MAILBOX_MAX_SIZE →
      (if now - s.circuit_breaker.transition_window_start ≥ 1 then 0
        else s.circuit_breaker.transition_count) < TRANSITION_RATE_LIMIT →
      (s.check_circuit_breaker now).2 = true ∧
      (s.check_circuit_breaker now).1.circuit_breaker.is_open = false ∧
      (s.check_circuit_breaker now).1.circuit_breaker.failure_count = 0) := by
  constructor
  · intro hopen htime
    simp only [StateMachine.check_circuit_breaker, StateMachine.trip_circuit_breaker,
      StateMachine.reset_circuit_breaker]
    split_ifs <;> simp_all <;> linarith
  · intro hopen htime hmb hcnt
    simp only [StateMachine.check_circuit_breaker, StateMachine.trip_circuit_breaker,
      StateMachine.reset_circuit_breaker]
    split_ifs <;> simp_all <;> omega

/-- C2 witness: a concrete open-breaker session is blocked at clock 10
(10 − 0 ≤ 30) and reset-and-allowed at clock 31 (31 − 0 > 30). -/
theorem breaker_open_gating_witness :
    ((openQuietSession.check_circuit_breaker 10).2 = false) ∧
    ((openQuietSession.check_circuit_breaker 31).2 = true ∧
      (openQuietSession.check_circuit_breaker 31).1.circuit_breaker.is_open = false ∧
      (openQuietSession.check_circuit_breaker 31).1.circuit_breaker.failure_count = 0) := by
  refine ⟨?_, ?_⟩
  · exact (breaker_open_gating openQuietSession 10).1 rfl
      (by norm_num [openQuietSession, CIRCUIT_BREAKER_TIMEOUT])
  · exact (breaker_open_gating openQuietSession 31).2 rfl
      (by norm_num [openQuietSession, CIRCUIT_BREAKER_TIMEOUT])
      (by norm_num [openQuietSession, MAILBOX_MAX_SIZE])
      (by norm_num [openQuietSession, TRANSITION_RATE_LIMIT])

/-- C3: the transition count never exceeds `TRANSITION_RATE_LIMIT` within
a rate window, and (Scenario A) from a fresh session 10 attempts inside
one second are all processed while the 11th is blocked, trips the breaker,
and bumps the trips counter labelled `rate_limit` from 0 to exactly 1. -/
theorem rate_limit_bound_and_scenario :
    (∀ (s : StateMachine) (now : ℚ),
        s.circuit_breaker.transition_count ≤ TRANSITION_RATE_LIMIT →
        (s.attempt now).1.circuit_breaker.transition_count ≤ TRANSITION_RATE_LIMIT) ∧
    ((freshSession.attemptsAt 0 10).circuit_breaker.transition_count = 10 ∧
      (freshSession.attemptsAt 0 10).metrics_registry.sa_fsm_blocked_transitions_total = 0 ∧
      (freshSession.attemptsAt 0 10).metrics_registry.sa_fsm_circuit_breaker_trips_total
        "rate_limit" = 0 ∧
      ((freshSession.attemptsAt 0 10).attempt 0).2 = false ∧
      ((freshSession.attemptsAt 0 10).attempt 0).1.circuit_breaker.is_open = true ∧
      ((freshSession.attemptsAt 0 10).attempt
          0).1.metrics_registry.sa_fsm_circuit_breaker_trips_total "rate_limit" = 1 ∧
      (freshSession.attemptsAt 0 11).metrics_registry.sa_fsm_blocked_transitions_total = 1) := by
  constructor
  · intro s now h
    have hh := check_count_le s now h
    simp only [StateMachine.attempt]
    rcases hc : s.check_circuit_breaker now with ⟨s1, b⟩
    rw [hc] at hh
    simp only at hh
    cases b
    · simpa using hh.1
    · have hlt := hh.2 rfl
      simp only [StateMachine.update_transition_metrics]
      simp only at hlt ⊢
      omega
  · norm_num [freshSession, StateMachine.attemptsAt, StateMachine.attempt,
      StateMachine.check_circuit_breaker, StateMachine.trip_circuit_breaker,
      StateMachine.reset_circuit_breaker, StateMachine.update_transition_metrics,
      MAILBOX_MAX_SIZE, TRANSITION_RATE_LIMIT]

/-- C3 witness: the window bound applied to a concrete fresh session. -/
theorem rate_limit_bound_and_scenario_witness :
    (freshSession.attempt 0).1.circuit_breaker.transition_count ≤ TRANSITION_RATE_LIMIT := by
  exact rate_limit_bound_and_scenario.1 freshSession 0
    (by norm_num [freshSession, TRANSITION_RATE_LIMIT])

/-- C4: a mailbox longer than `MAILBOX_MAX_SIZE` at check time trips the
breaker — `is_open` becomes true, `failure_count` is incremented,
`last_failure_time` is stamped, the trips counter labelled
`mailbox_overflow` is bumped — and the transition attempt is blocked. -/
theorem mailbox_overflow_blocks (s : StateMachine) (now : ℚ)
    (h : s.mailbox.length > MAILBOX_MAX_SIZE) :
    (s.check_circuit_breaker now).2 = false ∧
    (s.attempt now).2 = false ∧
    (s.check_circuit_breaker now).1.circuit_breaker.is_open = true ∧
    (s.check_circuit_breaker now).1.circuit_breaker.failure_count
      = s.circuit_breaker.failure_count + 1 ∧
    (s.check_circuit_breaker now).1.circuit_breaker.last_failure_time = now ∧
    (s.check_circuit_breaker now).1.metrics_registry.sa_fsm_circuit_breaker_trips_total
        "mailbox_overflow"
      = s.metrics_registry.sa_fsm_circuit_breaker_trips_total "mailbox_overflow" + 1 := by
  simp [StateMachine.check_circuit_breaker, StateMachine.attempt,
    StateMachine.trip_circuit_breaker, h]

/-- C4 witness: with 101 events enqueued the transition attempt is
blocked. -/
theorem mailbox_overflow_blocks_witness :
    overflowedSession.mailbox.length > MAILBOX_MAX_SIZE ∧
    (overflowedSession.attempt 0).2 = false := by
  have h : overflowedSession.mailbox.length > MAILBOX_MAX_SIZE := by
    simp [overflowedSession, MAILBOX_MAX_SIZE]
  exact ⟨h, (mailbox_overflow_blocks overflowedSession 0 h).2.1⟩

/-- C5 counterexample: with 101 events enqueued, after the breaker logic
has run the mailbox still holds 101 events — `len(mailbox) ≤
MAILBOX_MAX_SIZE` does not hold as a state invariant once the breaker is
engaged. -/
theorem mailbox_bound_counterexample :
    ((overflowedSession.check_circuit_breaker 0).1.mailbox.length = 101) ∧
    ¬((overflowedSession.check_circuit_breaker 0).1.mailbox.length ≤ MAILBOX_MAX_SIZE) := by
  norm_num [overflowedSession, StateMachine.check_circuit_breaker,
    StateMachine.trip_circuit_breaker, MAILBOX_MAX_SIZE]

/-- C5 (amended): the breaker logic never shrinks (or otherwise changes)
the mailbox, so its length is not bounded by the breaker; what holds
instead is that any transition attempt made while `len(mailbox) >
MAILBOX_MAX_SIZE` is blocked, so no transition is processed while the
mailbox exceeds the limit. -/
theorem breaker_preserves_mailbox (s : StateMachine) (now : ℚ) :
    ((s.check_circuit_breaker now).1.mailbox = s.mailbox) ∧
    ((s.attempt now).1.mailbox = s.mailbox) ∧
    (s.mailbox.length > MAILBOX_MAX_SIZE → (s.attempt now).2 = false) := by
  have hframe := (check_circuit_breaker_frame s now).2.1
  refine ⟨hframe, ?_, ?_⟩
  · simp only [StateMachine.attempt]
    rcases hc : s.check_circuit_breaker now with ⟨s1, b⟩
    rw [hc] at hframe
    simp only at hframe
    cases b
    · simpa using hframe
    · simpa [StateMachine.update_transition_metrics] using hframe
  · intro h
    have hb : (s.check_circuit_breaker now).2 = false := by
      simp [StateMachine.check_circuit_breaker, StateMachine.trip_circuit_breaker, h]
    simp only [StateMachine.attempt]
    rcases hc : s.check_circuit_breaker now with ⟨s1, b⟩
    rw [hc] at hb
    simp only at hb
    subst hb
    simp

/-- C5 witness: the amended statement applied to a session with 101
enqueued events. -/
theorem breaker_preserves_mailbox_witness :
    (overflowedSession.attempt 0).1.mailbox = overflowedSession.mailbox ∧
    (overflowedSession.attempt 0).2 = false := by
  have h := breaker_preserves_mailbox overflowedSession 0
  exact ⟨h.2.1, h.2.2 (by simp [overflowedSession, MAILBOX_MAX_SIZE])⟩

/-- C6 counterexample: stepping the NuSMV model out of `COMPLETE` (to
`READY`) from budget 50, depth 2, retries 2 yields budget 49 (not the
claimed reset to 100), depth 2 (not the claimed reset to 0) and retries 0
(not the claimed "left unchanged"). -/
theorem complete_to_ready_counterexample :
    (nusmvStep completeSessionSnapshot {}).state = .READY ∧
    (nusmvStep completeSessionSnapshot {}).step_budget = 49 ∧
    ¬(nusmvStep completeSessionSnapshot {}).step_budget = 100 ∧
    (nusmvStep completeSessionSnapshot {}).recursion_depth = 2 ∧
    ¬(nusmvStep completeSessionSnapshot {}).recursion_depth = 0 ∧
    (nusmvStep completeSessionSnapshot {}).tool_retry_count = 0 ∧
    ¬(nusmvStep completeSessionSnapshot {}).tool_retry_count
        = completeSessionSnapshot.tool_retry_count := by
  decide

/-- C6 (amended): in the NuSMV model the step out of `COMPLETE` goes to
`READY` unconditionally (no `TURN_COMPLETE` trigger is modelled); on it
`step_budget` counts down by one while positive instead of being reset,
`recursion_depth` is left unchanged instead of being reset, and
`tool_retry_count` is reset to 0 on this very step rather than being
preserved. -/
theorem complete_to_ready_effects (s : NusmvState) (i : NusmvInput)
    (h : s.state = .COMPLETE) :
    (nusmvStep s i).state = .READY ∧
    (nusmvStep s i).step_budget
      = (if s.step_budget > 0 then s.step_budget - 1 else s.step_budget) ∧
    (nusmvStep s i).recursion_depth = s.recursion_depth ∧
    (nusmvStep s i).tool_retry_count = 0 := by
  simp [nusmvStep, nusmvNextState, h]

/-- C6 witness: the amended statement applied to a concrete `COMPLETE`
snapshot. -/
theorem complete_to_ready_effects_witness :
    completeSessionSnapshot.state = .COMPLETE ∧
    (nusmvStep completeSessionSnapshot {}).state = .READY ∧
    (nusmvStep completeSessionSnapshot {}).tool_retry_count = 0 := by
  have h := complete_to_ready_effects completeSessionSnapshot {} rfl
  exact ⟨rfl, h.1, h.2.2.2⟩

/-- C7: a transition attempt blocked by the circuit breaker — whatever the
original transition body is — bumps `sa_fsm_blocked_transitions_total` by
exactly 1, returns the gate's state without running the body, and leaves
`current_state` unchanged. -/
theorem blocked_transition_frame (body : StateMachine → TransitionTrigger → StateMachine)
    (s : StateMachine) (trigger : TransitionTrigger) (now : ℚ)
    (h : (s.check_circuit_breaker now).2 = false) :
    StateMachine.transition body s trigger now = (s.attempt now).1 ∧
    (StateMachine.transition body s trigger now).current_state = s.current_state ∧
    (StateMachine.transition body s trigger now).metrics_registry.sa_fsm_blocked_transitions_total
      = s.metrics_registry.sa_fsm_blocked_transitions_total + 1 := by
  have hframe := check_circuit_breaker_frame s now
  rcases hc : s.check_circuit_breaker now with ⟨s1, b⟩
  rw [hc] at h hframe
  simp only at h hframe
  subst h
  refine ⟨?_, ?_, ?_⟩
  · simp [StateMachine.transition, StateMachine.attempt, hc]
  · simp [StateMachine.transition, StateMachine.attempt, hc, hframe.1]
  · simp [StateMachine.transition, StateMachine.attempt, hc, hframe.2.2]

/-- C7 witness: on a blocked session even a body that would force
`SHUTDOWN` never runs — the state stays `READY`. -/
theorem blocked_transition_frame_witness :
    (overflowedSession.check_circuit_breaker 0).2 = false ∧
    (StateMachine.transition shutdownBody overflowedSession .USER_INPUT 0).current_state
      = .READY := by
  have h : (overflowedSession.check_circuit_breaker 0).2 = false := by
    norm_num [overflowedSession, StateMachine.check_circuit_breaker,
      StateMachine.trip_circuit_breaker, MAILBOX_MAX_SIZE]
  refine ⟨h, ?_⟩
  have hthm := (blocked_transition_frame shutdownBody overflowedSession .USER_INPUT 0 h).2.1
  rw [hthm]
  rfl

/-- C8: a successful registration followed by an immediate `get` of the
same name returns exactly the Capability just registered, whose code and
metadata are the ones passed to `register`. -/
theorem register_get_roundtrip (r : CapabilityRegistry) (name : String) (code : Candidate)
    (meta : CapabilityMetadata) (now : ℚ) (p : CapabilityRegistry × Capability)
    (h : r.register name code meta now = .ok p) :
    p.1.get name = some p.2 ∧ p.2.code = code ∧ p.2.metadata = meta := by
  unfold CapabilityRegistry.register at h
  rcases hg : r.get name with _ | cap
  · rw [hg] at h
    simp only [Except.ok.injEq] at h
    subst h
    refine ⟨?_, rfl, rfl⟩
    unfold CapabilityRegistry.get at hg ⊢
    simp only [List.find?_append, hg, Option.none_orElse, List.find?_cons, List.find?_nil]
    simp
  · rw [hg] at h
    simp at h

/-- C8 witness: the round trip on a concrete empty registry. -/
theorem register_get_roundtrip_witness :
    ({} : CapabilityRegistry).register "sample_tool" sampleCandidate {} 0
        = .ok ({ capabilities := [sampleCap] }, sampleCap) ∧
    ({ capabilities := [sampleCap] } : CapabilityRegistry).get "sample_tool" = some sampleCap ∧
    sampleCap.code = sampleCandidate ∧ sampleCap.metadata = ({} : CapabilityMetadata) := by
  have h : ({} : CapabilityRegistry).register "sample_tool" sampleCandidate {} 0
      = .ok ({ capabilities := [sampleCap] }, sampleCap) := rfl
  have h2 := register_get_roundtrip {} "sample_tool" sampleCandidate {} 0
    ({ capabilities := [sampleCap] }, sampleCap) h
  exact ⟨h, h2⟩

/-- C9: handling `AtomGap(missing_tool = e2e_fibonacci, description =
fibonacci)` creates a capability named `e2e_fibonacci` that reaches status
`active`, and a subsequent `ToolCall(tool_name = e2e_fibonacci, n = 10)`
yields `ToolResult(success = true)` with result value 55. -/
theorem fibonacci_flow :
    ((e2eRegistry.get "e2e_fibonacci").map Capability.status = some .active) ∧
    ((handle_tool_call e2eRegistry e2eCall 1).2
      = .result { tool_call_id := "e2e_test_call", success := true, result := some 55
                  error := none }) := by
  exact ⟨rfl, rfl⟩

/-- C10: delivering the same `ToolResult` event (same `tool_call_id`)
twice leaves the consumer exactly where the first delivery left it — in
particular no capability's `usage_count` is incremented a second time. -/
theorem duplicate_result_no_double_count (st : ResultConsumer) (tool_name : String)
    (res : ToolResult) (now now2 : ℚ) :
    (st.deliver tool_name res now).deliver tool_name res now2 = st.deliver tool_name res now ∧
    ((st.deliver tool_name res now).deliver tool_name res now2).registry.capabilities.map
        Capability.usage_count
      = (st.deliver tool_name res now).registry.capabilities.map Capability.usage_count := by
  have h : (st.deliver tool_name res now).deliver tool_name res now2
      = st.deliver tool_name res now := by
    by_cases h : st.processed_tool_call_ids.contains res.tool_call_id
    · have h1 : st.deliver tool_name res now = st := by
        simp only [ResultConsumer.deliver, h, if_pos]
      rw [h1]
      simp only [ResultConsumer.deliver, h, if_pos]
    · have h1 : st.deliver tool_name res now =
          { registry := st.registry.record_usage tool_name now
            processed_tool_call_ids := res.tool_call_id :: st.processed_tool_call_ids } := by
        simp only [ResultConsumer.deliver, h, if_neg, Bool.false_eq_true, if_false]
      rw [h1]
      simp [ResultConsumer.deliver]
  exact ⟨h, by rw [h]⟩

end Atlai
